import Mathlib

/-!
Shallow embedding of the metrics-generator orchestration core of the Tempo
tracing backend (modules/generator/generator.go and
modules/generator/storage/instance.go), together with theorems settling the
specification claims about it.

Machine state that the Go code mutates is modelled by explicit state passing;
side effects that the claims talk about (filesystem operations, subsystem
starts/stops, per-tenant shutdown tasks) are modelled as events appended to a
trace list in the order in which the corresponding Go statements execute.
External library calls (dskit ring token generator, dskit backoff, prometheus
agent WAL) are modelled by their documented contracts, with randomness made
deterministic.  Fallible external calls are driven by explicit
failure-injection environments so that every error path of the source is
reachable in the model.

The file is laid out with all definitions first and all theorems after them.
-/

namespace TempoGen

/-- Errors surfaced by the generator.  `unconfigured` models `ErrUnconfigured`,
`readOnly` models `ErrReadOnly`; every other error produced by wrapping with
`fmt.Errorf` is modelled as `generic msg`. -/
inductive GenError where
  | unconfigured
  | readOnly
  | generic (msg : String)
deriving DecidableEq, Repr

/-- Trace-ordering predicate: every position where `p` holds comes strictly
before every position where `q` holds. -/
def allBefore {α : Type} (t : List α) (p q : α → Prop) : Prop :=
  ∀ i j, (hi : i < t.length) → (hj : j < t.length) → p (t.get ⟨i, hi⟩) → q (t.get ⟨j, hj⟩) → i < j

/-! ### Ring membership delegate (generator.go, OnRingInstanceRegister) -/

/-- `ringNumTokens`: safe default, not exposed in config. -/
def ringNumTokens : Nat := 256

/-- States of an instance in the dskit ring. -/
inductive InstanceState where
  | ACTIVE
  | JOINING
  | LEAVING
  | PENDING
  | LEFT
deriving DecidableEq, Repr

/-- The tokens of the ring descriptor (`ring.Desc.GetTokens`): the tokens of
all instances currently in the ring. -/
structure RingDesc where
  allTokens : List Nat

/-- The descriptor of this instance in the ring (`ring.InstanceDesc`). -/
structure InstanceDesc where
  tokens : List Nat

/-- Model of dskit `ring.RandomTokenGenerator.GenerateTokens count taken`: it
returns `count` tokens that are distinct from every token in `taken` and from
each other (collision avoidance).  The randomness is modelled
deterministically: the i-th generated token is `max taken + 1 + i`. -/
def generateTokens (count : Nat) (taken : List Nat) : List Nat :=
  (List.range count).map (fun i => taken.foldr max 0 + 1 + i)

/-- `Generator.OnRingInstanceRegister` (generator.go): keep existing tokens if
the instance already exists, generate the missing `256 - |tokens|` tokens
avoiding every token already taken in the ring, and always return `ACTIVE`. -/
def OnRingInstanceRegister (ringDesc : RingDesc) (instanceExists : Bool)
    (instanceDesc : InstanceDesc) : InstanceState × List Nat :=
  let tokens := if instanceExists then instanceDesc.tokens else []
  let takenTokens := ringDesc.allTokens
  let newTokens := generateTokens (ringNumTokens - tokens.length) takenTokens
  (InstanceState.ACTIVE, tokens ++ newTokens)

/-! ### Generator data model (generator.go) -/

/-- Spans are abstract payloads. -/
abbrev Span := String

/-- The slice of the generator configuration that the orchestration core
reads.  `validateOk` models the outcome of `cfg.Validate()` (whose body lives
in config.go, outside this core). -/
structure GenConfig where
  storagePath : String
  tracesWALPath : String
  tracesQueryWALPath : String
  disableGRPC : Bool
  ingestEnabled : Bool
  validateOk : Bool
deriving DecidableEq, Repr

/-- Modelled from the spec: a Tenant Instance (instance.go is outside the
provided core) "wraps a tenant's storage plus in-memory derived-metrics state;
owns its shutdown sequence (flush, close, deregister)".  `spans` is the
derived-metrics state fed by `instance.pushSpans`. -/
structure Instance where
  tenantID : String
  spans : List Span
deriving DecidableEq, Repr

/-- Observable side effects of the push / registry / constructor paths, in
program order. -/
inductive Event where
  | lookup (id : String)
  | walOpened (id : String)
  | walClosed (id : String)
  | tracesWALCreated (id : String)
  | tracesQueryWALCreated (id : String)
  | instanceCreated (id : String)
  | instanceShutdown (id : String)
  | registryMerged (id : String)
  | applySpans (id : String)
deriving DecidableEq, Repr

/-- Failure injection for the fallible steps of `createInstance`. -/
structure CreateEnv where
  storageNewFails : Bool
  tracesWALFails : Bool
  tracesQueryWALFails : Bool
  newInstanceFails : Bool
  registerFails : Bool
deriving DecidableEq, Repr

/-- Generator state: configuration, the one-way read-only flag and the tenant
instance registry (an association list keyed by tenant ID). -/
structure GenState where
  cfg : GenConfig
  readOnly : Bool
  instances : List (String × Instance)
deriving DecidableEq, Repr

/-- `Generator.getInstanceByID` (generator.go): read the registry under the
read lock. -/
def GenState.lookupInstance (g : GenState) (id : String) : Option Instance :=
  (g.instances.find? (fun p => p.1 == id)).map Prod.snd

/-- `Generator.createInstance` (generator.go): a temporary, isolated metrics
registry is used for WAL and instance creation and merged into the shared one
only on full success; each failure path rolls back what was acquired exactly
as the source does (`wal.Close()` on the three middle failures,
`inst.shutdown()` on a failed merge).  `inst.shutdown()` also emits
`walClosed`: modelled from the spec, the Instance owns its shutdown sequence
(flush, close, deregister) and closes the storage it owns. -/
def createInstance (cfg : GenConfig) (id : String) (env : CreateEnv) :
    List Event × Except GenError Instance :=
  if env.storageNewFails then
    ([], .error (.generic "storage.New failed"))
  else
    let log₁ : List Event := [.walOpened id]
    if cfg.tracesWALPath != "" && env.tracesWALFails then
      (log₁ ++ [.walClosed id], .error (.generic "tempodb_wal.New failed"))
    else
      let log₂ := log₁ ++ (if cfg.tracesWALPath != "" then [Event.tracesWALCreated id] else [])
      if cfg.tracesQueryWALPath != "" && env.tracesQueryWALFails then
        (log₂ ++ [.walClosed id], .error (.generic "tempodb_wal.New failed"))
      else
        let log₃ :=
          log₂ ++ (if cfg.tracesQueryWALPath != "" then [Event.tracesQueryWALCreated id] else [])
        if env.newInstanceFails then
          (log₃ ++ [.walClosed id], .error (.generic "newInstance failed"))
        else
          let log₄ := log₃ ++ [Event.instanceCreated id]
          if env.registerFails then
            (log₄ ++ [.instanceShutdown id, .walClosed id],
             .error (.generic "duplicate metrics registration"))
          else
            (log₄ ++ [Event.registryMerged id], .ok { tenantID := id, spans := [] })

/-- `Generator.getOrCreateInstance` (generator.go): double-checked creation.
In this sequential model the re-check under the write lock reads the same
registry as the first check. -/
def getOrCreateInstance (g : GenState) (id : String) (env : CreateEnv) :
    GenState × List Event × Except GenError Instance :=
  match g.lookupInstance id with
  | some inst => (g, [.lookup id], .ok inst)
  | none =>
    match g.lookupInstance id with
    | some inst => (g, [.lookup id, .lookup id], .ok inst)
    | none =>
      match createInstance g.cfg id env with
      | (log, .error e) => (g, .lookup id :: .lookup id :: log, .error e)
      | (log, .ok inst) =>
        ({ g with instances := g.instances ++ [(id, inst)] },
         .lookup id :: .lookup id :: log, .ok inst)

/-- The acknowledgement returned by a successful push
(`tempopb.PushResponse`). -/
structure PushResponse where
deriving DecidableEq, Repr

/-- `Generator.PushSpans` (generator.go): reject immediately with the
read-only sentinel when shutting down; otherwise extract the tenant from the
request context (`user.ExtractOrgID`), get or create its instance, and apply
the spans to that instance's derived-metrics state (`instance.pushSpans`,
modelled from the spec as appending to the tenant's derived-metrics state). -/
def PushSpans (g : GenState) (ctxOrgID : Option String) (spans : List Span) (env : CreateEnv) :
    GenState × List Event × Except GenError PushResponse :=
  if g.readOnly then (g, [], .error .readOnly)
  else
    match ctxOrgID with
    | none => (g, [], .error (.generic "no org id"))
    | some id =>
      match getOrCreateInstance g id env with
      | (g', log, .error e) => (g', log, .error e)
      | (g', log, .ok _) =>
        ({ g' with instances := g'.instances.map (fun p =>
            if p.1 == id then (p.1, { p.2 with spans := p.2.spans ++ spans }) else p) },
         log ++ [.applySpans id], .ok ⟨⟩)

structure SpanMetricsResponse where
  series : List String
deriving DecidableEq, Repr

structure QueryRangeResponse where
  series : List String
deriving DecidableEq, Repr

/-- Modelled from the spec: the per-instance metrics query (instance.go is
outside the provided core) serves the tenant's derived-metrics state. -/
def Instance.metricsSeries (inst : Instance) : List String :=
  inst.spans

/-- `Generator.GetMetrics` (generator.go): return an empty response — not an
error — when the tenant has no instance. -/
def GetMetrics (g : GenState) (ctxOrgID : Option String) :
    GenState × Except GenError SpanMetricsResponse :=
  match ctxOrgID with
  | none => (g, .error (.generic "no org id"))
  | some id =>
    match g.lookupInstance id with
    | none => (g, .ok ⟨[]⟩)
    | some inst => (g, .ok ⟨inst.metricsSeries⟩)

/-- `Generator.QueryRange` (generator.go): same empty-if-absent contract as
`GetMetrics`. -/
def QueryRange (g : GenState) (ctxOrgID : Option String) :
    GenState × Except GenError QueryRangeResponse :=
  match ctxOrgID with
  | none => (g, .error (.generic "no org id"))
  | some id =>
    match g.lookupInstance id with
    | none => (g, .ok ⟨[]⟩)
    | some inst => (g, .ok ⟨inst.metricsSeries⟩)

/-! ### Generator constructor (generator.go, New) -/

/-- Side effects of `generator.New`, in program order. -/
inductive NewEvent where
  | mkdirAll (path : String)
  | createKVClient
  | createRingLifecycler
deriving DecidableEq, Repr

/-- Failure injection for the fallible steps of `generator.New`. -/
structure NewEnv where
  mkdirFails : Bool
  kvClientFails : Bool
  lifecyclerCfgFails : Bool
  lifecyclerFails : Bool
deriving DecidableEq, Repr

/-- `generator.New` (generator.go): fail fast with `ErrUnconfigured` when no
storage path is configured, then validate, create the storage directory, and
(when gRPC is enabled) build the KV store client and the ring lifecycler. -/
def GeneratorNew (cfg : GenConfig) (env : NewEnv) :
    List NewEvent × Except GenError GenState :=
  if cfg.storagePath == "" then ([], .error .unconfigured)
  else if !cfg.validateOk then ([], .error (.generic "invalid config"))
  else if env.mkdirFails then
    ([.mkdirAll cfg.storagePath], .error (.generic "failed to mkdir"))
  else
    let log₁ : List NewEvent := [.mkdirAll cfg.storagePath]
    if !cfg.disableGRPC then
      if env.kvClientFails then (log₁, .error (.generic "create KV store client"))
      else if env.lifecyclerCfgFails then
        (log₁ ++ [.createKVClient], .error (.generic "invalid ring lifecycler config"))
      else if env.lifecyclerFails then
        (log₁ ++ [.createKVClient], .error (.generic "create ring lifecycler"))
      else
        (log₁ ++ [.createKVClient, .createRingLifecycler],
         .ok { cfg := cfg, readOnly := false, instances := [] })
    else (log₁, .ok { cfg := cfg, readOnly := false, instances := [] })

/-! ### Properties (definitions used by theorem statements) -/

/-- Some step of instance construction fails under `cfg` and `env`. -/
def createFails (cfg : GenConfig) (env : CreateEnv) : Bool :=
  env.storageNewFails ||
  (cfg.tracesWALPath != "" && env.tracesWALFails) ||
  (cfg.tracesQueryWALPath != "" && env.tracesQueryWALFails) ||
  env.newInstanceFails || env.registerFails

/-- Every resource acquired in `log` for tenant `id` has been rolled back: an
opened WAL storage is closed again, a built instance is shut down, and the
temporary metrics namespace was never merged into the shared one. -/
def rolledBack (log : List Event) (id : String) : Prop :=
  (Event.walOpened id ∈ log → Event.walClosed id ∈ log) ∧
  (Event.instanceCreated id ∈ log → Event.instanceShutdown id ∈ log) ∧
  Event.registryMerged id ∉ log

/-! ### Sample values used by the witness theorems -/

def sampleCfg : GenConfig :=
  { storagePath := "/var/tempo", tracesWALPath := "", tracesQueryWALPath := "",
    disableGRPC := false, ingestEnabled := true, validateOk := true }

def sampleCfgNoPath : GenConfig :=
  { storagePath := "", tracesWALPath := "/wal", tracesQueryWALPath := "",
    disableGRPC := false, ingestEnabled := true, validateOk := true }

def sampleEnvOk : CreateEnv :=
  { storageNewFails := false, tracesWALFails := false, tracesQueryWALFails := false,
    newInstanceFails := false, registerFails := false }

def sampleEnvRegisterFail : CreateEnv :=
  { storageNewFails := false, tracesWALFails := false, tracesQueryWALFails := false,
    newInstanceFails := false, registerFails := true }

def sampleInstance : Instance :=
  { tenantID := "tenant-a", spans := ["span-1"] }

def sampleStateReadOnly : GenState :=
  { cfg := sampleCfg, readOnly := true, instances := [("tenant-a", sampleInstance)] }

def sampleStateLive : GenState :=
  { cfg := sampleCfg, readOnly := false, instances := [("tenant-a", sampleInstance)] }

/-! ### Generator lifecycle: stopping (generator.go) -/

/-- Grace sleep after ring deregistration, in seconds
(`time.Sleep(5 * time.Second)` — let the ring propagate the shutdown). -/
def stopGraceSeconds : Nat := 5

/-- Steps of the stopping sequence, in the order the corresponding Go
statements execute.  `stopSubservices` models the synchronous
`services.StopManagerAndAwaitStopped` call on the subservice manager;
`stopKafka` models the synchronous `g.stopKafka()` call, which stops reading
from the queue and waits for outstanding data to be processed and committed
before returning; `shutdownInstance id` marks the start of the per-tenant
shutdown goroutine spawned for `id`; `awaitShutdowns` is the `wg.Wait()` join
performed before the sequence returns. -/
inductive StopEvent where
  | stopSubservices
  | sleepGrace (seconds : Nat)
  | setReadOnly
  | stopKafka
  | shutdownInstance (id : String)
  | awaitShutdowns
deriving DecidableEq, Repr

/-- `Generator.stopping` (generator.go).  `hasSubservices` models
`g.subservices != nil`.  Returns the effect trace in program order and the
post-state (`stopIncomingRequests` stores true into the read-only flag). -/
def stopping (g : GenState) (hasSubservices : Bool) : List StopEvent × GenState :=
  ((if hasSubservices then [StopEvent.stopSubservices] else []) ++
     [StopEvent.sleepGrace stopGraceSeconds, StopEvent.setReadOnly] ++
     (if g.cfg.ingestEnabled then [StopEvent.stopKafka] else []) ++
     g.instances.map (fun p => StopEvent.shutdownInstance p.1) ++
     [StopEvent.awaitShutdowns],
   { g with readOnly := true })

/-- The effect trace of the stopping sequence. -/
def stoppingTrace (g : GenState) (hasSubservices : Bool) : List StopEvent :=
  (stopping g hasSubservices).1

/-- Holds for the start of a per-tenant shutdown task. -/
def isShutdownEvent : StopEvent → Prop
  | .shutdownInstance _ => True
  | _ => False

/-- Phase rank of a stopping-sequence event. -/
def stopRank : StopEvent → Nat
  | .stopSubservices => 0
  | .sleepGrace _ => 1
  | .setReadOnly => 2
  | .stopKafka => 3
  | .shutdownInstance _ => 4
  | .awaitShutdowns => 5

/-- The ordering asserted by the stopping-sequence claim: subsystems stopped
and awaited first, then the fixed grace sleep, then the read-only flip, then
the stop of streaming consumption, and only then the per-tenant shutdown
tasks, all of which precede the final join; a shutdown task is started for
every cached tenant; the post-state is read-only. -/
def stoppingOrderSpec (g : GenState) (hasSubservices : Bool) : Prop :=
  (hasSubservices = true → StopEvent.stopSubservices ∈ stoppingTrace g hasSubservices ∧
    allBefore (stoppingTrace g hasSubservices)
      (· = StopEvent.stopSubservices) (· = StopEvent.sleepGrace stopGraceSeconds)) ∧
  StopEvent.sleepGrace stopGraceSeconds ∈ stoppingTrace g hasSubservices ∧
  stopGraceSeconds = 5 ∧
  allBefore (stoppingTrace g hasSubservices)
    (· = StopEvent.sleepGrace stopGraceSeconds) (· = StopEvent.setReadOnly) ∧
  StopEvent.setReadOnly ∈ stoppingTrace g hasSubservices ∧
  allBefore (stoppingTrace g hasSubservices)
    (· = StopEvent.setReadOnly) (· = StopEvent.stopKafka) ∧
  StopEvent.stopKafka ∈ stoppingTrace g hasSubservices ∧
  allBefore (stoppingTrace g hasSubservices) (· = StopEvent.stopKafka) isShutdownEvent ∧
  (∀ p ∈ g.instances, StopEvent.shutdownInstance p.1 ∈ stoppingTrace g hasSubservices) ∧
  allBefore (stoppingTrace g hasSubservices) isShutdownEvent (· = StopEvent.awaitShutdowns) ∧
  StopEvent.awaitShutdowns ∈ stoppingTrace g hasSubservices ∧
  allBefore (stoppingTrace g hasSubservices)
    (fun e => e ≠ StopEvent.awaitShutdowns) (· = StopEvent.awaitShutdowns) ∧
  (stopping g hasSubservices).2.readOnly = true

/-! ### Generator lifecycle: starting (generator.go) -/

/-- dskit `backoff.Config`. -/
structure BackoffConfig where
  minBackoffMs : Nat
  maxBackoffMs : Nat
  maxRetries : Nat
deriving DecidableEq, Repr

/-- The backoff configuration `starting` uses for the kafka connectivity
probe: `MinBackoff: 100 ms`, `MaxBackoff: time.Minute`, `MaxRetries: 10`. -/
def kafkaBackoffConfig : BackoffConfig :=
  { minBackoffMs := 100, maxBackoffMs := 60000, maxRetries := 10 }

/-- Model of the dskit backoff's nominal delay schedule: doubling from the
initial delay and capped at the maximum (the randomized jitter inside each
doubling window is abstracted away). -/
def backoffDelayMs (cfg : BackoffConfig) (attempt : Nat) : Nat :=
  min (cfg.minBackoffMs * 2 ^ attempt) cfg.maxBackoffMs

/-- Side effects of the streaming-source part of `starting`, in program
order. -/
inductive StartEvent where
  | createKafkaClient
  | pingAttempt (attempt : Nat) (ok : Bool)
  | createAdmClient
  | createPartitionOffsetClient
deriving DecidableEq, Repr

/-- The `for boff.Ongoing()` ping loop of `Generator.starting`: while the
retry counter is below `MaxRetries`, ping; break on success, `boff.Wait()`
(which increments the counter) on failure.  Returns the emitted ping events
and the final retry counter.  (dskit treats `MaxRetries = 0` as unbounded;
the configuration used here is 10, so the loop is modelled for a positive
bound.) -/
def kafkaPingLoop (pings : Nat → Bool) (maxRetries n : Nat) : List StartEvent × Nat :=
  if maxRetries ≤ n then ([], n)
  else if pings n then ([.pingAttempt n true], n)
  else
    let r := kafkaPingLoop pings maxRetries (n + 1)
    (.pingAttempt n false :: r.1, r.2)
termination_by maxRetries - n

/-- The streaming-source part of `Generator.starting` (generator.go): create
the kafka reader client, probe connectivity under the bounded backoff, fail
startup when `boff.ErrCause()` reports the retries exhausted, and construct
the admin client and the partition-offset client only after the probe
succeeded. -/
def startingKafka (ingestEnabled clientCreateFails : Bool) (pings : Nat → Bool) :
    List StartEvent × Except GenError Unit :=
  if !ingestEnabled then ([], .ok ())
  else if clientCreateFails then
    ([], .error (.generic "failed to create kafka reader client"))
  else
    let r := kafkaPingLoop pings kafkaBackoffConfig.maxRetries 0
    if kafkaBackoffConfig.maxRetries ≤ r.2 then
      (StartEvent.createKafkaClient :: r.1, .error (.generic "failed to ping kafka"))
    else
      (StartEvent.createKafkaClient :: (r.1 ++
         [StartEvent.createAdmClient, StartEvent.createPartitionOffsetClient]), .ok ())

/-- Holds for a connectivity-probe attempt. -/
def isPingEvent : StartEvent → Prop
  | .pingAttempt _ _ => True
  | _ => False

/-- Number of connectivity-probe attempts in a trace. -/
def countPings (t : List StartEvent) : Nat :=
  t.countP (fun e => match e with | .pingAttempt _ _ => true | _ => false)

/-- The property asserted by the startup-probe claim: the probe's backoff is
configured with initial delay 100 ms, cap 60 s and at most 10 attempts (and
its nominal delay schedule starts at 100 ms, doubles and never exceeds the
cap); at most 10 probe attempts are made; exhausting every attempt makes
`starting` return an error with neither auxiliary client constructed; and on
success both auxiliary clients are constructed, strictly after the probe
attempts. -/
def startingProbeSpec (clientCreateFails : Bool) (pings : Nat → Bool) : Prop :=
  kafkaBackoffConfig.minBackoffMs = 100 ∧
  kafkaBackoffConfig.maxBackoffMs = 60000 ∧
  kafkaBackoffConfig.maxRetries = 10 ∧
  backoffDelayMs kafkaBackoffConfig 0 = 100 ∧
  (∀ k, backoffDelayMs kafkaBackoffConfig k ≤ 60000) ∧
  (∀ k, backoffDelayMs kafkaBackoffConfig (k + 1) =
    min (2 * backoffDelayMs kafkaBackoffConfig k) 60000) ∧
  countPings (startingKafka true clientCreateFails pings).1 ≤ 10 ∧
  ((∀ k, k < 10 → pings k = false) → clientCreateFails = false →
    (startingKafka true clientCreateFails pings).2 = .error (.generic "failed to ping kafka") ∧
    StartEvent.createAdmClient ∉ (startingKafka true clientCreateFails pings).1 ∧
    StartEvent.createPartitionOffsetClient ∉ (startingKafka true clientCreateFails pings).1) ∧
  ((startingKafka true clientCreateFails pings).2 = .ok () →
    (∃ k, k < 10 ∧ pings k = true) ∧
    StartEvent.createAdmClient ∈ (startingKafka true clientCreateFails pings).1 ∧
    StartEvent.createPartitionOffsetClient ∈ (startingKafka true clientCreateFails pings).1 ∧
    allBefore (startingKafka true clientCreateFails pings).1 isPingEvent
      (fun e => e = StartEvent.createAdmClient ∨ e = StartEvent.createPartitionOffsetClient))

/-! ### Per-tenant storage (modules/generator/storage, instance.go) -/

/-- A filesystem entry: a path given as its components, plus a directory
flag. -/
structure FsEntry where
  path : List String
  isDir : Bool
deriving DecidableEq, Repr

/-- The filesystem as a list of entries. -/
abbrev Fs := List FsEntry

/-- `p` lies at or under directory `dir`. -/
def underDir (dir p : List String) : Bool :=
  dir.isPrefixOf p

/-- `os.RemoveAll dir`: remove the directory and everything under it. -/
def removeAll (dir : List String) (fs : Fs) : Fs :=
  fs.filter (fun e => !(underDir dir e.path))

/-- `os.MkdirAll`: ensure a directory entry is present (parents are handled
by calling this for each directory that must exist). -/
def mkdirAll (dir : List String) (fs : Fs) : Fs :=
  if ({ path := dir, isDir := true } : FsEntry) ∈ fs then fs
  else { path := dir, isDir := true } :: fs

/-- Per-tenant override values read by the storage: the remote-write headers
(`MetricsGeneratorRemoteWriteHeaders`) and the native-histogram mode after
the `overrides.HasNativeHistograms` conversion
(`MetricsGeneratorGenerateNativeHistograms`). -/
structure TenantOverrides where
  headers : List (String × String)
  sendNativeHistograms : Bool
deriving DecidableEq, Repr

/-- Modelled from the spec: `generateTenantRemoteWriteConfigs`
(remote_write.go is outside the provided core) builds the remote-forward
configuration from the static remote-write settings and the tenant's
overrides (custom headers, org-ID header injection flag, histogram mode). -/
structure RemoteWriteConfig where
  tenant : String
  headers : List (String × String)
  addOrgIDHeader : Bool
  sendNativeHistograms : Bool
deriving DecidableEq, Repr

def generateTenantRemoteWriteConfigs (tenant : String) (headers : List (String × String))
    (addOrgIDHeader sendNativeHistograms : Bool) : RemoteWriteConfig :=
  { tenant := tenant, headers := headers, addOrgIDHeader := addOrgIDHeader,
    sendNativeHistograms := sendNativeHistograms }

/-- The storage `Config` (config.go, outside the core): only the fields read
by instance.go are modelled. -/
structure StorageConfig where
  path : List String
  addOrgIDHeader : Bool
deriving DecidableEq, Repr

/-- `headersEqual` (instance.go): equal lengths and every key of `a` maps to
the same value in `b`. -/
def headersEqual (a b : List (String × String)) : Bool :=
  a.length == b.length && a.all (fun kv => b.lookup kv.1 == some kv.2)

/-- Override-watcher poll interval: `time.NewTicker(30 * time.Second)`. -/
def watchOverridesIntervalSeconds : Nat := 30

/-- `storageImpl` (instance.go).  `appliedRemoteConfig` is the configuration
currently active on the remote-forward path (the last `remote.ApplyConfig`
that succeeded); `currentHeaders` and `sendNativeHistograms` are the override
values cached by the watcher; `updateFailedCount` models the per-tenant
`tempo_metrics_generator_storage_remote_write_update_failed_total` counter;
`closeChClosed` records whether `closeCh` was closed, which makes
`watchOverrides` return. -/
structure StorageImpl where
  cfg : StorageConfig
  walDir : List String
  tenantID : String
  currentHeaders : List (String × String)
  sendNativeHistograms : Bool
  appliedRemoteConfig : RemoteWriteConfig
  closeChClosed : Bool
  updateFailedCount : Nat
deriving DecidableEq, Repr

/-- Failure injection for `storage.New`.  `removeFails` injects an
`os.RemoveAll` failure, which the source only logs before continuing. -/
structure StorageNewEnv where
  removeFails : Bool
  mkdirFails : Bool
  applyConfigFails : Bool
  walOpenFails : Bool
deriving DecidableEq, Repr

/-- `storage.New` (instance.go): wipe the tenant's WAL directory, recreate
the directory structure (`<walDir>` and `<walDir>/wal`), build the
remote-forward configuration from the tenant's overrides and apply it, then
open the agent WAL and compose the fanout, finally spawn the override
watcher.  A failing `os.RemoveAll` is only logged as a warning and
construction continues (modelled as the removal having no effect, so
leftover entries survive); the freshly opened WAL's own segment files are
owned by the WAL handle and are not modelled as named filesystem entries. -/
def storageNew (cfg : StorageConfig) (o : TenantOverrides) (tenant : String)
    (fs : Fs) (env : StorageNewEnv) : Except GenError StorageImpl × Fs :=
  let walDir := cfg.path ++ [tenant]
  let fs₁ := if env.removeFails then fs else removeAll walDir fs
  if env.mkdirFails then
    (.error (.generic "could not create directory for metrics WAL"), fs₁)
  else
    let fs₂ := mkdirAll (walDir ++ ["wal"]) (mkdirAll walDir fs₁)
    let rwCfg := generateTenantRemoteWriteConfigs tenant o.headers cfg.addOrgIDHeader
      o.sendNativeHistograms
    if env.applyConfigFails then (.error (.generic "remote ApplyConfig failed"), fs₂)
    else if env.walOpenFails then (.error (.generic "agent.Open failed"), fs₂)
    else
      (.ok { cfg := cfg, walDir := walDir, tenantID := tenant,
             currentHeaders := o.headers, sendNativeHistograms := o.sendNativeHistograms,
             appliedRemoteConfig := rwCfg, closeChClosed := false, updateFailedCount := 0 },
       fs₂)

/-- Errors the close path can observe: the fanout's WAL close error, the
fanout's remote-forward close error, and the `os.RemoveAll` error. -/
structure CloseEnv where
  walCloseErr : Option String
  remoteCloseErr : Option String
  removeErr : Option String
deriving DecidableEq, Repr

/-- `tsdb_errors.NewMulti(...).Err()`: nil when nothing failed, otherwise the
collected non-nil errors. -/
def multiErr (errs : List (Option String)) : Option (List String) :=
  match errs.filterMap id with
  | [] => none
  | l => some l

/-- `storageImpl.Close` (instance.go): close `closeCh` (stopping the override
watcher), close the fanout storage — collecting the WAL and remote-forward
errors — and remove the tenant's WAL directory, joining all errors. -/
def storageClose (s : StorageImpl) (fs : Fs) (env : CloseEnv) :
    Option (List String) × StorageImpl × Fs :=
  (multiErr [env.walCloseErr, env.remoteCloseErr, env.removeErr],
   { s with closeChClosed := true },
   if env.removeErr = none then removeAll s.walDir fs else fs)

/-- One tick of `storageImpl.watchOverrides` (instance.go): poll the tenant's
overrides; when the polled headers or histogram mode differ from the cached
values, overwrite the cache and reapply the remote-forward configuration; a
failed reapplication increments the per-tenant failure counter and is logged,
leaving the active remote configuration unchanged.  `p.applyFails` injects
the `remote.ApplyConfig` failure.  Returns the new state and whether a
reapplication was attempted. -/
structure WatcherPoll where
  headers : List (String × String)
  sendNativeHistograms : Bool
  applyFails : Bool
deriving DecidableEq, Repr

def watchOverridesStep (s : StorageImpl) (p : WatcherPoll) : StorageImpl × Bool :=
  if !(headersEqual s.currentHeaders p.headers) ||
      s.sendNativeHistograms != p.sendNativeHistograms then
    let s₁ := { s with currentHeaders := p.headers,
                       sendNativeHistograms := p.sendNativeHistograms }
    let newCfg := generateTenantRemoteWriteConfigs s.tenantID p.headers s.cfg.addOrgIDHeader
      p.sendNativeHistograms
    if p.applyFails then
      ({ s₁ with updateFailedCount := s₁.updateFailedCount + 1 }, true)
    else
      ({ s₁ with appliedRemoteConfig := newCfg }, true)
  else (s, false)

/-- `watchOverrides` over a sequence of ticks: the loop keeps stepping —
whatever each step's outcome — until `closeCh` is closed. -/
def watchOverridesRun (s : StorageImpl) (polls : List WatcherPoll) : StorageImpl :=
  match polls with
  | [] => s
  | p :: ps => if s.closeChClosed then s else watchOverridesRun (watchOverridesStep s p).1 ps

/-! ### Sample storage values used by the witness theorems -/

def sampleStorageCfg : StorageConfig :=
  { path := ["data"], addOrgIDHeader := true }

def sampleOverrides : TenantOverrides :=
  { headers := [("X-Custom", "v1")], sendNativeHistograms := false }

def sampleStorageEnvOk : StorageNewEnv :=
  { removeFails := false, mkdirFails := false, applyConfigFails := false, walOpenFails := false }

def sampleStorageEnvRemoveFail : StorageNewEnv :=
  { removeFails := true, mkdirFails := false, applyConfigFails := false, walOpenFails := false }

def sampleLeftoverFs : Fs :=
  [{ path := ["data", "t1"], isDir := true },
   { path := ["data", "t1", "wal"], isDir := true },
   { path := ["data", "t1", "wal", "segment-0001"], isDir := false },
   { path := ["data", "t2", "keep"], isDir := false }]

def sampleStorage : StorageImpl :=
  { cfg := sampleStorageCfg, walDir := ["data", "t1"], tenantID := "t1",
    currentHeaders := [("X-Custom", "v1")], sendNativeHistograms := false,
    appliedRemoteConfig :=
      generateTenantRemoteWriteConfigs "t1" [("X-Custom", "v1")] true false,
    closeChClosed := false, updateFailedCount := 0 }

def samplePollChanged : WatcherPoll :=
  { headers := [("X-Custom", "v2")], sendNativeHistograms := false, applyFails := true }

def samplePollSame : WatcherPoll :=
  { headers := [("X-Custom", "v2")], sendNativeHistograms := false, applyFails := false }

def samplePollChangedAgain : WatcherPoll :=
  { headers := [("X-Custom", "v3")], sendNativeHistograms := false, applyFails := false }

/-- The property asserted by the storage-lifecycle claim for a successful
construction `storageNew cfg o tenant fs env = (.ok s, fs₂)`: no leftover file
under the tenant's WAL directory survives construction, the directory
structure (WAL directory and its `wal` subdirectory) is recreated, and for
any later filesystem state a `Close` stops the override watcher, collects the
WAL and remote-forward close errors, and removes the WAL directory when the
removal succeeds (a clean close). -/
def storageLifecycleSpec (cfg : StorageConfig) (tenant : String)
    (fs : Fs) (s : StorageImpl) (fs₂ : Fs) : Prop :=
  (∀ e ∈ fs, underDir (cfg.path ++ [tenant]) e.path = true → e.isDir = false → e ∉ fs₂) ∧
  FsEntry.mk (cfg.path ++ [tenant]) true ∈ fs₂ ∧
  FsEntry.mk (cfg.path ++ [tenant] ++ ["wal"]) true ∈ fs₂ ∧
  s.walDir = cfg.path ++ [tenant] ∧
  s.closeChClosed = false ∧
  (∀ (fs' : Fs) (cenv : CloseEnv),
    (storageClose s fs' cenv).2.1.closeChClosed = true ∧
    (∀ msg, cenv.walCloseErr = some msg →
      ∃ l, (storageClose s fs' cenv).1 = some l ∧ msg ∈ l) ∧
    (∀ msg, cenv.remoteCloseErr = some msg →
      ∃ l, (storageClose s fs' cenv).1 = some l ∧ msg ∈ l) ∧
    (cenv.removeErr = none →
      ∀ e ∈ (storageClose s fs' cenv).2.2, underDir s.walDir e.path = false))

/-- The property asserted by the override-watcher claim: the poll interval is
the fixed 30 seconds; a reapplication is attempted exactly when the polled
header set or histogram mode differs from the cached (last-applied) values;
on a failed reapplication the active remote configuration is unchanged, the
per-tenant failure counter increments and the watcher keeps running; on a
successful reapplication the new configuration becomes active; an unchanged
poll leaves the state untouched; and the loop always continues to the next
poll while `closeCh` is open. -/
def watchOverridesSpec (s : StorageImpl) (p : WatcherPoll) (ps : List WatcherPoll) : Prop :=
  watchOverridesIntervalSeconds = 30 ∧
  ((watchOverridesStep s p).2 = true ↔
    ¬(headersEqual s.currentHeaders p.headers = true ∧
      s.sendNativeHistograms = p.sendNativeHistograms)) ∧
  (¬(headersEqual s.currentHeaders p.headers = true ∧
      s.sendNativeHistograms = p.sendNativeHistograms) →
    (p.applyFails = true →
      (watchOverridesStep s p).1.appliedRemoteConfig = s.appliedRemoteConfig ∧
      (watchOverridesStep s p).1.updateFailedCount = s.updateFailedCount + 1 ∧
      (watchOverridesStep s p).1.closeChClosed = s.closeChClosed) ∧
    (p.applyFails = false →
      (watchOverridesStep s p).1.appliedRemoteConfig =
        generateTenantRemoteWriteConfigs s.tenantID p.headers s.cfg.addOrgIDHeader
          p.sendNativeHistograms ∧
      (watchOverridesStep s p).1.updateFailedCount = s.updateFailedCount)) ∧
  ((headersEqual s.currentHeaders p.headers = true ∧
      s.sendNativeHistograms = p.sendNativeHistograms) →
    watchOverridesStep s p = (s, false)) ∧
  (s.closeChClosed = false →
    watchOverridesRun s (p :: ps) = watchOverridesRun (watchOverridesStep s p).1 ps)

/-- The property asserted by the no-retry claim: the watcher overwrites its
cached values before attempting the reapplication (even when it fails), a
following poll with the same values attempts nothing, and a following poll
whose values differ from the cache attempts a reapplication again. -/
def watcherNoRetrySpec (s : StorageImpl) (p p' : WatcherPoll) : Prop :=
  (watchOverridesStep s p).1.currentHeaders = p.headers ∧
  (watchOverridesStep s p).1.sendNativeHistograms = p.sendNativeHistograms ∧
  (p'.headers = p.headers → p'.sendNativeHistograms = p.sendNativeHistograms →
    watchOverridesStep (watchOverridesStep s p).1 p' = ((watchOverridesStep s p).1, false)) ∧
  (¬(headersEqual p.headers p'.headers = true ∧
      p.sendNativeHistograms = p'.sendNativeHistograms) →
    (watchOverridesStep (watchOverridesStep s p).1 p').2 = true)

/-!
## Theorems
-/

theorem allBefore_append {α : Type} {t₁ t₂ : List α} {p q : α → Prop}
    (hp : ∀ x ∈ t₂, ¬ p x) (hq : ∀ x ∈ t₁, ¬ q x) :
    allBefore (t₁ ++ t₂) p q := by
  intro i j hi hj hpi hqj
  by_cases hi1 : i < t₁.length
  · by_cases hj1 : j < t₁.length
    · exfalso
      apply hq (t₁.get ⟨j, hj1⟩) (t₁.get_mem _ _)
      have : (t₁ ++ t₂).get ⟨j, hj⟩ = t₁.get ⟨j, hj1⟩ := by
        have h2 : (t₁ ++ t₂)[j] = t₁[j] := List.getElem_append_left hj1
        simpa using h2
      rw [this] at hqj
      exact hqj
    · omega
  · exfalso
    push_neg at hi1
    have hlt : i - t₁.length < t₂.length := by
      have := hi
      simp [List.length_append] at this
      omega
    apply hp (t₂.get ⟨i - t₁.length, hlt⟩) (t₂.get_mem _ _)
    have : (t₁ ++ t₂).get ⟨i, hi⟩ = t₂.get ⟨i - t₁.length, hlt⟩ := by
      simpa using List.getElem_append_right hi1
    rw [this] at hpi
    exact hpi

theorem mem_ite_nil {α : Type} (c : Prop) [Decidable c] (l : List α) (x : α) :
    (x ∈ if c then l else []) ↔ c ∧ x ∈ l := by
  split <;> simp_all

theorem mem_le_foldr_max (l : List Nat) (a : Nat) (h : a ∈ l) : a ≤ l.foldr max 0 := by
  induction l with
  | nil => cases h
  | cons x xs ih =>
    simp only [List.foldr_cons]
    rcases List.mem_cons.mp h with h1 | h2
    · subst h1
      exact Nat.le_max_left _ _
    · exact le_trans (ih h2) (Nat.le_max_right _ _)

theorem generateTokens_length (count : Nat) (taken : List Nat) :
    (generateTokens count taken).length = count := by
  simp [generateTokens]

theorem generateTokens_fresh (count : Nat) (taken : List Nat) :
    ∀ x ∈ generateTokens count taken, ∀ a ∈ taken, a < x := by
  intro x hx a ha
  simp [generateTokens] at hx
  obtain ⟨i, _, hi⟩ := hx
  have hi2 : taken.foldr max 0 + 1 + i = x := hi
  have := mem_le_foldr_max taken a ha
  omega

theorem generateTokens_nodup (count : Nat) (taken : List Nat) :
    (generateTokens count taken).Nodup := by
  refine List.Nodup.map ?_ (List.nodup_range count)
  intro a b hab
  have hab2 : taken.foldr max 0 + 1 + a = taken.foldr max 0 + 1 + b := hab
  omega

/-- C3: every call to the ring-register callback returns state ACTIVE and a
token set of size exactly 256 that keeps every existing token and is disjoint
from the taken tokens that are not already owned (`S \ T`).  The hypotheses
record what is true of every actual call: the existing token set has no
duplicates, holds at most 256 tokens (a replica never owns more), and — since
the ring descriptor contains this instance when `instanceExists` — every
existing token is among the ring's taken tokens. -/
theorem C3_onRingInstanceRegister (ringDesc : RingDesc) (instanceExists : Bool)
    (instanceDesc : InstanceDesc)
    (hnodup : instanceDesc.tokens.Nodup)
    (hlen : instanceDesc.tokens.length ≤ ringNumTokens)
    (hsub : ∀ a ∈ (if instanceExists then instanceDesc.tokens else []), a ∈ ringDesc.allTokens) :
    (OnRingInstanceRegister ringDesc instanceExists instanceDesc).1 = InstanceState.ACTIVE ∧
    (OnRingInstanceRegister ringDesc instanceExists instanceDesc).2.length = ringNumTokens ∧
    (OnRingInstanceRegister ringDesc instanceExists instanceDesc).2.Nodup ∧
    (∀ a ∈ (if instanceExists then instanceDesc.tokens else []),
      a ∈ (OnRingInstanceRegister ringDesc instanceExists instanceDesc).2) ∧
    (∀ s ∈ ringDesc.allTokens, s ∉ (if instanceExists then instanceDesc.tokens else []) →
      s ∉ (OnRingInstanceRegister ringDesc instanceExists instanceDesc).2) := by
  have hT_nodup : (if instanceExists then instanceDesc.tokens else []).Nodup := by
    cases instanceExists <;> simp [hnodup]
  have hT_len : (if instanceExists then instanceDesc.tokens else []).length ≤ ringNumTokens := by
    cases instanceExists <;> simp [hlen]
  have hr2 : (OnRingInstanceRegister ringDesc instanceExists instanceDesc).2 =
      (if instanceExists then instanceDesc.tokens else []) ++
        generateTokens
          (ringNumTokens - (if instanceExists then instanceDesc.tokens else []).length)
          ringDesc.allTokens := rfl
  refine ⟨rfl, ?_, ?_, ?_, ?_⟩
  · rw [hr2, List.length_append, generateTokens_length]
    omega
  · rw [hr2, List.nodup_append]
    refine ⟨hT_nodup, generateTokens_nodup _ _, ?_⟩
    intro a haT hanew
    have haS : a ∈ ringDesc.allTokens := hsub a haT
    have := generateTokens_fresh _ ringDesc.allTokens a hanew a haS
    omega
  · intro a ha
    rw [hr2]
    exact List.mem_append_left _ ha
  · intro s hsS hsT hmem
    rw [hr2] at hmem
    rcases List.mem_append.mp hmem with h | h
    · exact hsT h
    · have := generateTokens_fresh _ ringDesc.allTokens s h s hsS
      omega

/-- Witness for C3 at a concrete call: existing tokens `[5]`, taken tokens
`[5, 10]`. -/
theorem C3_onRingInstanceRegister_witness :
    ([5] : List Nat).Nodup ∧ ([5] : List Nat).length ≤ ringNumTokens ∧
    (∀ a ∈ (if true then [5] else ([] : List Nat)), a ∈ [5, 10]) ∧
    ((OnRingInstanceRegister ⟨[5, 10]⟩ true ⟨[5]⟩).1 = InstanceState.ACTIVE ∧
     (OnRingInstanceRegister ⟨[5, 10]⟩ true ⟨[5]⟩).2.length = ringNumTokens ∧
     (OnRingInstanceRegister ⟨[5, 10]⟩ true ⟨[5]⟩).2.Nodup ∧
     (∀ a ∈ (if true then [5] else ([] : List Nat)),
       a ∈ (OnRingInstanceRegister ⟨[5, 10]⟩ true ⟨[5]⟩).2) ∧
     (∀ s ∈ ([5, 10] : List Nat), s ∉ (if true then [5] else ([] : List Nat)) →
       s ∉ (OnRingInstanceRegister ⟨[5, 10]⟩ true ⟨[5]⟩).2)) :=
  ⟨by decide, by decide, by decide,
   C3_onRingInstanceRegister ⟨[5, 10]⟩ true ⟨[5]⟩ (by decide) (by decide) (by decide)⟩

/-- C8: for every configuration whose storage path is the empty string,
`generator.New` returns the distinguished unconfigured error without touching
the filesystem and before any subsystem is constructed or started (empty
effect trace), whatever the rest of the configuration and the environment. -/
theorem C8_new_unconfigured (cfg : GenConfig) (env : NewEnv) (h : cfg.storagePath = "") :
    GeneratorNew cfg env = ([], .error .unconfigured) ∧
    GenError.unconfigured ≠ GenError.readOnly ∧
    (∀ msg, GenError.unconfigured ≠ GenError.generic msg) := by
  refine ⟨?_, by decide, ?_⟩
  · simp [GeneratorNew, h]
  · intro msg hc
    exact GenError.noConfusion hc

/-- Witness for C8: a concrete configuration with an empty storage path and an
otherwise healthy environment. -/
theorem C8_new_unconfigured_witness :
    sampleCfgNoPath.storagePath = "" ∧
    (GeneratorNew sampleCfgNoPath
        { mkdirFails := false, kvClientFails := false,
          lifecyclerCfgFails := false, lifecyclerFails := false } =
      ([], .error .unconfigured) ∧
     GenError.unconfigured ≠ GenError.readOnly ∧
     (∀ msg, GenError.unconfigured ≠ GenError.generic msg)) :=
  ⟨rfl, C8_new_unconfigured sampleCfgNoPath _ rfl⟩

/-- C2: every `PushSpans` call made after the read-only flag is set returns
the distinguished read-only error (distinct from the generic errors), performs
no lookup or creation of any tenant instance and applies no spans (the effect
trace is empty), and leaves the whole generator state — in particular every
tenant's state — unchanged. -/
theorem C2_pushSpans_readOnly (g : GenState) (ctxOrgID : Option String)
    (spans : List Span) (env : CreateEnv) (h : g.readOnly = true) :
    PushSpans g ctxOrgID spans env = (g, [], .error .readOnly) ∧
    GenError.readOnly ≠ GenError.unconfigured ∧
    (∀ msg, GenError.readOnly ≠ GenError.generic msg) := by
  refine ⟨?_, by decide, ?_⟩
  · simp [PushSpans, h]
  · intro msg hc
    exact GenError.noConfusion hc

/-- Witness for C2: a read-only generator holding one cached tenant rejects a
concrete push without any state change. -/
theorem C2_pushSpans_readOnly_witness :
    sampleStateReadOnly.readOnly = true ∧
    (PushSpans sampleStateReadOnly (some "tenant-a") ["span-2"] sampleEnvOk =
      (sampleStateReadOnly, [], .error .readOnly) ∧
     GenError.readOnly ≠ GenError.unconfigured ∧
     (∀ msg, GenError.readOnly ≠ GenError.generic msg)) :=
  ⟨rfl, C2_pushSpans_readOnly sampleStateReadOnly (some "tenant-a") ["span-2"] sampleEnvOk rfl⟩

/-- C9: when no instance exists for a tenant, `GetMetrics` returns an empty
metrics result and `QueryRange` returns an empty range result — both
successes, not errors — and neither call changes the registry (no instance is
created). -/
theorem C9_query_empty_if_absent (g : GenState) (id : String)
    (h : g.lookupInstance id = none) :
    GetMetrics g (some id) = (g, .ok ⟨[]⟩) ∧
    QueryRange g (some id) = (g, .ok ⟨[]⟩) := by
  constructor <;> simp [GetMetrics, QueryRange, h]

/-- Witness for C9: a generator that caches only `tenant-a` serves empty
results for `tenant-b`. -/
theorem C9_query_empty_if_absent_witness :
    sampleStateLive.lookupInstance "tenant-b" = none ∧
    (GetMetrics sampleStateLive (some "tenant-b") = (sampleStateLive, .ok ⟨[]⟩) ∧
     QueryRange sampleStateLive (some "tenant-b") = (sampleStateLive, .ok ⟨[]⟩)) :=
  ⟨by decide, C9_query_empty_if_absent sampleStateLive "tenant-b" (by decide)⟩

theorem createInstance_fail_rollback (cfg : GenConfig) (id : String) (env : CreateEnv)
    (hfail : createFails cfg env = true) :
    ∃ e, (createInstance cfg id env).2 = .error e ∧
      rolledBack (createInstance cfg id env).1 id := by
  cases hsn : env.storageNewFails with
  | true =>
    refine ⟨.generic "storage.New failed", ?_, ?_⟩ <;>
      simp [createInstance, hsn, rolledBack, mem_ite_nil]
  | false =>
    cases htw : (cfg.tracesWALPath != "" && env.tracesWALFails) with
    | true =>
      refine ⟨.generic "tempodb_wal.New failed", ?_, ?_⟩ <;>
        simp [createInstance, hsn, htw, rolledBack, mem_ite_nil]
    | false =>
      cases htq : (cfg.tracesQueryWALPath != "" && env.tracesQueryWALFails) with
      | true =>
        refine ⟨.generic "tempodb_wal.New failed", ?_, ?_⟩ <;>
          simp [createInstance, hsn, htw, htq, rolledBack, mem_ite_nil]
      | false =>
        cases hni : env.newInstanceFails with
        | true =>
          refine ⟨.generic "newInstance failed", ?_, ?_⟩ <;>
            simp [createInstance, hsn, htw, htq, hni, rolledBack, mem_ite_nil]
        | false =>
          cases hrg : env.registerFails with
          | true =>
            refine ⟨.generic "duplicate metrics registration", ?_, ?_⟩ <;>
              simp [createInstance, hsn, htw, htq, hni, hrg, rolledBack, mem_ite_nil]
          | false =>
            exfalso
            simp [createFails, hsn, htw, htq, hni, hrg] at hfail

/-- C4: if any step of instance construction fails for a tenant that is not
yet cached, `getOrCreateInstance` surfaces that step's error to the caller,
the registry is left unchanged (the tenant is not cached, so the next push
retries construction), and every resource acquired before the failure is
rolled back: the WAL storage is closed, a partially built instance is shut
down, and the temporary metrics namespace is never merged. -/
theorem C4_getOrCreate_rollback (g : GenState) (id : String) (env : CreateEnv)
    (habsent : g.lookupInstance id = none)
    (hfail : createFails g.cfg env = true) :
    ∃ e, (createInstance g.cfg id env).2 = .error e ∧
      getOrCreateInstance g id env =
        (g, Event.lookup id :: Event.lookup id :: (createInstance g.cfg id env).1, .error e) ∧
      rolledBack (createInstance g.cfg id env).1 id := by
  obtain ⟨e, herr, hrb⟩ := createInstance_fail_rollback g.cfg id env hfail
  refine ⟨e, herr, ?_, hrb⟩
  rcases hc : createInstance g.cfg id env with ⟨log, res⟩
  rw [hc] at herr
  simp only at herr
  subst herr
  simp [getOrCreateInstance, habsent, hc]

/-- Witness for C4: constructing `tenant-b` under a failing metrics-registry
merge surfaces the error, rolls everything back and leaves the registry
unchanged. -/
theorem C4_getOrCreate_rollback_witness :
    sampleStateLive.lookupInstance "tenant-b" = none ∧
    createFails sampleStateLive.cfg sampleEnvRegisterFail = true ∧
    (∃ e, (createInstance sampleStateLive.cfg "tenant-b" sampleEnvRegisterFail).2 = .error e ∧
      getOrCreateInstance sampleStateLive "tenant-b" sampleEnvRegisterFail =
        (sampleStateLive,
         Event.lookup "tenant-b" :: Event.lookup "tenant-b" ::
           (createInstance sampleStateLive.cfg "tenant-b" sampleEnvRegisterFail).1,
         .error e) ∧
      rolledBack (createInstance sampleStateLive.cfg "tenant-b" sampleEnvRegisterFail).1
        "tenant-b") :=
  ⟨by decide, by decide,
   C4_getOrCreate_rollback sampleStateLive "tenant-b" sampleEnvRegisterFail
     (by decide) (by decide)⟩

theorem allBefore_of_pairwise_rank {α : Type} (t : List α) (r : α → Nat)
    (hsort : t.Pairwise (fun a b => r a ≤ r b)) (p q : α → Prop)
    (hpq : ∀ a b, p a → q b → r a < r b) :
    allBefore t p q := by
  intro i j hi hj hp hq
  by_contra hij
  push_neg at hij
  have hlt := hpq _ _ hp hq
  rcases Nat.lt_or_ge j i with hji | hge
  · have := (List.pairwise_iff_get.mp hsort) ⟨j, hj⟩ ⟨i, hi⟩ hji
    omega
  · have heq : i = j := by omega
    subst heq
    omega

theorem pairwise_rank_shutdown_map (l : List (String × Instance)) :
    (l.map (fun p => StopEvent.shutdownInstance p.1)).Pairwise
      (fun a b => stopRank a ≤ stopRank b) := by
  induction l with
  | nil => simp
  | cons x xs ih =>
    simp only [List.map_cons, List.pairwise_cons]
    refine ⟨?_, ih⟩
    intro b hb
    rcases List.mem_map.mp hb with ⟨p, _, rfl⟩
    simp [stopRank]

theorem rank_of_shutdown_map (x : StopEvent) (l : List (String × Instance))
    (hx : x ∈ l.map (fun p => StopEvent.shutdownInstance p.1)) : stopRank x = 4 := by
  rcases List.mem_map.mp hx with ⟨p, _, rfl⟩
  rfl

theorem stoppingTrace_pairwise (g : GenState) (hs : Bool) :
    (stoppingTrace g hs).Pairwise (fun a b => stopRank a ≤ stopRank b) := by
  have h1 : ((g.instances.map (fun p => StopEvent.shutdownInstance p.1)) ++
      [StopEvent.awaitShutdowns]).Pairwise (fun a b => stopRank a ≤ stopRank b) := by
    rw [List.pairwise_append]
    refine ⟨pairwise_rank_shutdown_map _, by simp, ?_⟩
    intro a ha b hb
    simp at hb
    subst hb
    rw [rank_of_shutdown_map a _ ha]
    simp [stopRank]
  have hmem1 : ∀ b ∈ (g.instances.map (fun p => StopEvent.shutdownInstance p.1)) ++
      [StopEvent.awaitShutdowns], 4 ≤ stopRank b := by
    intro b hb
    rcases List.mem_append.mp hb with h | h
    · rw [rank_of_shutdown_map b _ h]
    · simp at h
      subst h
      simp [stopRank]
  have h2 : ((if g.cfg.ingestEnabled then [StopEvent.stopKafka] else []) ++
      ((g.instances.map (fun p => StopEvent.shutdownInstance p.1)) ++
        [StopEvent.awaitShutdowns])).Pairwise (fun a b => stopRank a ≤ stopRank b) := by
    rw [List.pairwise_append]
    refine ⟨?_, h1, ?_⟩
    · cases g.cfg.ingestEnabled <;> simp
    · intro a ha b hb
      have h4 := hmem1 b hb
      have ha3 : stopRank a = 3 := by
        rcases (mem_ite_nil _ _ a).mp ha with ⟨_, hmem⟩
        simp at hmem
        subst hmem
        rfl
      omega
  have hmem2 : ∀ b ∈ (if g.cfg.ingestEnabled then [StopEvent.stopKafka] else []) ++
      ((g.instances.map (fun p => StopEvent.shutdownInstance p.1)) ++
        [StopEvent.awaitShutdowns]), 3 ≤ stopRank b := by
    intro b hb
    rcases List.mem_append.mp hb with h | h
    · rcases (mem_ite_nil _ _ b).mp h with ⟨_, hmem⟩
      simp at hmem
      subst hmem
      simp [stopRank]
    · have := hmem1 b h
      omega
  have h3 : (StopEvent.setReadOnly ::
      ((if g.cfg.ingestEnabled then [StopEvent.stopKafka] else []) ++
        ((g.instances.map (fun p => StopEvent.shutdownInstance p.1)) ++
          [StopEvent.awaitShutdowns]))).Pairwise (fun a b => stopRank a ≤ stopRank b) := by
    rw [List.pairwise_cons]
    refine ⟨?_, h2⟩
    intro b hb
    have := hmem2 b hb
    have hsr : stopRank StopEvent.setReadOnly = 2 := rfl
    omega
  have h4 : (StopEvent.sleepGrace stopGraceSeconds :: StopEvent.setReadOnly ::
      ((if g.cfg.ingestEnabled then [StopEvent.stopKafka] else []) ++
        ((g.instances.map (fun p => StopEvent.shutdownInstance p.1)) ++
          [StopEvent.awaitShutdowns]))).Pairwise (fun a b => stopRank a ≤ stopRank b) := by
    rw [List.pairwise_cons]
    refine ⟨?_, h3⟩
    intro b hb
    rcases List.mem_cons.mp hb with h | h
    · subst h
      decide
    · have := hmem2 b h
      have hsl : stopRank (StopEvent.sleepGrace stopGraceSeconds) = 1 := rfl
      omega
  have h5 : ((if hs then [StopEvent.stopSubservices] else []) ++
      (StopEvent.sleepGrace stopGraceSeconds :: StopEvent.setReadOnly ::
        ((if g.cfg.ingestEnabled then [StopEvent.stopKafka] else []) ++
          ((g.instances.map (fun p => StopEvent.shutdownInstance p.1)) ++
            [StopEvent.awaitShutdowns])))).Pairwise (fun a b => stopRank a ≤ stopRank b) := by
    rw [List.pairwise_append]
    refine ⟨?_, h4, ?_⟩
    · cases hs <;> simp
    · intro a ha b _
      rcases (mem_ite_nil _ _ a).mp ha with ⟨_, hmem⟩
      simp at hmem
      subst hmem
      simp [stopRank]
  show ((if hs then [StopEvent.stopSubservices] else []) ++
     [StopEvent.sleepGrace stopGraceSeconds, StopEvent.setReadOnly] ++
     (if g.cfg.ingestEnabled then [StopEvent.stopKafka] else []) ++
     g.instances.map (fun p => StopEvent.shutdownInstance p.1) ++
     [StopEvent.awaitShutdowns]).Pairwise (fun a b => stopRank a ≤ stopRank b)
  simpa [List.append_assoc] using h5

/-- C1: with the streaming source enabled, the stopping sequence is strictly
ordered: started subsystems are stopped and awaited first, then the fixed
5-second grace sleep, then the read-only flip, then streaming consumption is
stopped, and only after that is a shutdown task started for every cached
tenant instance, with the join on all per-tenant shutdown tasks as the final
step before returning. -/
theorem C1_stopping_order (g : GenState) (hasSubservices : Bool)
    (hIngest : g.cfg.ingestEnabled = true) :
    stoppingOrderSpec g hasSubservices := by
  have hpw := stoppingTrace_pairwise g hasSubservices
  refine ⟨?_, ?_, rfl, ?_, ?_, ?_, ?_, ?_, ?_, ?_, ?_, ?_, rfl⟩
  · intro h
    subst h
    constructor
    · simp [stoppingTrace, stopping]
    · refine allBefore_of_pairwise_rank _ stopRank hpw _ _ ?_
      intro a b ha hb
      subst ha
      subst hb
      simp [stopRank]
  · simp [stoppingTrace, stopping]
  · refine allBefore_of_pairwise_rank _ stopRank hpw _ _ ?_
    intro a b ha hb
    subst ha
    subst hb
    simp [stopRank]
  · simp [stoppingTrace, stopping]
  · refine allBefore_of_pairwise_rank _ stopRank hpw _ _ ?_
    intro a b ha hb
    subst ha
    subst hb
    simp [stopRank]
  · simp [stoppingTrace, stopping, hIngest]
  · refine allBefore_of_pairwise_rank _ stopRank hpw _ _ ?_
    intro a b ha hb
    subst ha
    cases b <;> simp [isShutdownEvent] at hb
    simp [stopRank]
  · intro p hp
    have hmm : StopEvent.shutdownInstance p.1 ∈
        g.instances.map (fun q => StopEvent.shutdownInstance q.1) :=
      List.mem_map.mpr ⟨p, hp, rfl⟩
    simp only [stoppingTrace, stopping, List.append_assoc, List.mem_append]
    exact Or.inr (Or.inr (Or.inr (Or.inl hmm)))
  · refine allBefore_of_pairwise_rank _ stopRank hpw _ _ ?_
    intro a b ha hb
    subst hb
    cases a <;> simp [isShutdownEvent] at ha
    simp [stopRank]
  · simp [stoppingTrace, stopping]
  · refine allBefore_of_pairwise_rank _ stopRank hpw _ _ ?_
    intro a b ha hb
    subst hb
    cases a <;> simp_all [stopRank]

/-- Witness for C1: a generator with two cached tenants, subservices started
and the streaming source enabled. -/
theorem C1_stopping_order_witness :
    sampleStateLive.cfg.ingestEnabled = true ∧ stoppingOrderSpec sampleStateLive true :=
  ⟨rfl, C1_stopping_order sampleStateLive true rfl⟩

theorem kafkaPingLoop_length (pings : Nat → Bool) (m : Nat) :
    ∀ n, (kafkaPingLoop pings m n).1.length ≤ m - n := by
  have H : ∀ d n, m - n ≤ d → (kafkaPingLoop pings m n).1.length ≤ m - n := by
    intro d
    induction d with
    | zero =>
      intro n hn
      have hmn : m ≤ n := by omega
      rw [kafkaPingLoop]
      simp [hmn]
    | succ d ih =>
      intro n hn
      rw [kafkaPingLoop]
      by_cases hmn : m ≤ n
      · simp [hmn]
      · rw [if_neg hmn]
        by_cases hp : pings n = true
        · rw [if_pos hp]
          simp
          omega
        · rw [if_neg hp]
          have := ih (n + 1) (by omega)
          simp only [List.length_cons]
          omega
  intro n
  exact H (m - n) n le_rfl

theorem kafkaPingLoop_success (pings : Nat → Bool) (m : Nat) :
    ∀ n, (kafkaPingLoop pings m n).2 < m → pings ((kafkaPingLoop pings m n).2) = true := by
  have H : ∀ d n, m - n ≤ d → (kafkaPingLoop pings m n).2 < m →
      pings ((kafkaPingLoop pings m n).2) = true := by
    intro d
    induction d with
    | zero =>
      intro n hn hlt
      have hmn : m ≤ n := by omega
      rw [kafkaPingLoop] at hlt
      simp [hmn] at hlt
      omega
    | succ d ih =>
      intro n hn
      rw [kafkaPingLoop]
      by_cases hmn : m ≤ n
      · simp [hmn]
      · rw [if_neg hmn]
        by_cases hp : pings n = true
        · rw [if_pos hp]
          intro _
          exact hp
        · rw [if_neg hp]
          simp only
          exact ih (n + 1) (by omega)
  intro n
  exact H (m - n) n le_rfl

theorem kafkaPingLoop_events (pings : Nat → Bool) (m : Nat) :
    ∀ n, ∀ e ∈ (kafkaPingLoop pings m n).1, isPingEvent e := by
  have H : ∀ d n, m - n ≤ d → ∀ e ∈ (kafkaPingLoop pings m n).1, isPingEvent e := by
    intro d
    induction d with
    | zero =>
      intro n hn e he
      have hmn : m ≤ n := by omega
      rw [kafkaPingLoop] at he
      simp [hmn] at he
    | succ d ih =>
      intro n hn e he
      rw [kafkaPingLoop] at he
      by_cases hmn : m ≤ n
      · simp [hmn] at he
      · rw [if_neg hmn] at he
        by_cases hp : pings n = true
        · rw [if_pos hp] at he
          simp at he
          subst he
          trivial
        · rw [if_neg hp] at he
          simp only [List.mem_cons] at he
          rcases he with he | he
          · subst he
            trivial
          · exact ih (n + 1) (by omega) e he
  intro n
  exact H (m - n) n le_rfl

/-- C7: with the streaming source enabled, startup probes connectivity under
an exponential backoff configured with initial delay 100 ms, cap 60 s and at
most 10 attempts; exhausting every attempt makes `starting` return an error
with neither auxiliary client constructed, and the admin client and the
partition-offset client are constructed only after a successful probe. -/
theorem C7_starting_probe (clientCreateFails : Bool) (pings : Nat → Bool) :
    startingProbeSpec clientCreateFails pings := by
  have hlen : (kafkaPingLoop pings kafkaBackoffConfig.maxRetries 0).1.length ≤ 10 :=
    kafkaPingLoop_length pings kafkaBackoffConfig.maxRetries 0
  have hev := kafkaPingLoop_events pings kafkaBackoffConfig.maxRetries 0
  refine ⟨rfl, rfl, rfl, rfl, ?_, ?_, ?_, ?_, ?_⟩
  · intro k
    exact Nat.min_le_right _ _
  · intro k
    simp only [backoffDelayMs, kafkaBackoffConfig]
    rw [pow_succ]
    generalize (2 : Nat) ^ k = a
    omega
  · cases hc : clientCreateFails with
    | true => simp [startingKafka, hc, countPings]
    | false =>
      have hcp := List.countP_le_length
        (p := fun e => match e with | StartEvent.pingAttempt _ _ => true | _ => false)
        (l := (kafkaPingLoop pings kafkaBackoffConfig.maxRetries 0).1)
      simp only [startingKafka, hc, Bool.not_true, Bool.false_eq_true, if_false]
      by_cases hr : kafkaBackoffConfig.maxRetries ≤ (kafkaPingLoop pings kafkaBackoffConfig.maxRetries 0).2
      · rw [if_pos hr]
        simp [countPings]
        omega
      · rw [if_neg hr]
        simp [countPings]
        omega
  · intro hall hcf
    subst hcf
    have hr : kafkaBackoffConfig.maxRetries ≤ (kafkaPingLoop pings kafkaBackoffConfig.maxRetries 0).2 := by
      by_contra hlt
      push_neg at hlt
      have hp := kafkaPingLoop_success pings kafkaBackoffConfig.maxRetries 0 hlt
      have : (kafkaPingLoop pings kafkaBackoffConfig.maxRetries 0).2 < 10 := hlt
      exact absurd hp (by simp [hall _ this])
    refine ⟨?_, ?_, ?_⟩
    · simp [startingKafka, if_pos hr]
    · simp only [startingKafka, Bool.not_true, Bool.false_eq_true, if_false, if_pos hr]
      intro hmem
      rcases List.mem_cons.mp hmem with h | h
      · exact StartEvent.noConfusion h
      · have := hev _ h
        simp [isPingEvent] at this
    · simp only [startingKafka, Bool.not_true, Bool.false_eq_true, if_false, if_pos hr]
      intro hmem
      rcases List.mem_cons.mp hmem with h | h
      · exact StartEvent.noConfusion h
      · have := hev _ h
        simp [isPingEvent] at this
  · intro hok
    cases hc : clientCreateFails with
    | true =>
      rw [hc] at hok
      simp [startingKafka] at hok
    | false =>
      rw [hc] at hok
      by_cases hr : kafkaBackoffConfig.maxRetries ≤ (kafkaPingLoop pings kafkaBackoffConfig.maxRetries 0).2
      · simp [startingKafka, if_pos hr] at hok
      · push_neg at hr
        have hp := kafkaPingLoop_success pings kafkaBackoffConfig.maxRetries 0 hr
        refine ⟨⟨(kafkaPingLoop pings kafkaBackoffConfig.maxRetries 0).2, hr, hp⟩, ?_, ?_, ?_⟩
        · simp [startingKafka, if_neg (not_le.mpr hr)]
        · simp [startingKafka, if_neg (not_le.mpr hr)]
        · simp only [startingKafka, Bool.not_true, Bool.false_eq_true, if_false,
            if_neg (not_le.mpr hr)]
          rw [show (StartEvent.createKafkaClient ::
              ((kafkaPingLoop pings kafkaBackoffConfig.maxRetries 0).1 ++
                [StartEvent.createAdmClient, StartEvent.createPartitionOffsetClient])) =
              ((StartEvent.createKafkaClient ::
                (kafkaPingLoop pings kafkaBackoffConfig.maxRetries 0).1) ++
                [StartEvent.createAdmClient, StartEvent.createPartitionOffsetClient]) from rfl]
          apply allBefore_append
          · intro x hx
            simp at hx
            rcases hx with h | h <;> subst h <;> simp [isPingEvent]
          · intro x hx hor
            rcases List.mem_cons.mp hx with h | h
            · subst h
              rcases hor with h | h <;> exact StartEvent.noConfusion h
            · have := hev _ h
              cases x <;> simp [isPingEvent] at this
              rcases hor with h2 | h2 <;> exact StartEvent.noConfusion h2

/-- Witness for C7 on a concrete probe outcome function (success on the third
attempt). -/
theorem C7_starting_probe_witness :
    startingProbeSpec false (fun k => k == 2) :=
  C7_starting_probe false (fun k => k == 2)

theorem mem_mkdirAll {x : FsEntry} {d : List String} {fs : Fs}
    (hx : x ∈ mkdirAll d fs) : x = { path := d, isDir := true } ∨ x ∈ fs := by
  unfold mkdirAll at hx
  split at hx
  · exact Or.inr hx
  · rcases List.mem_cons.mp hx with h | h
    · exact Or.inl h
    · exact Or.inr h

theorem mem_mkdirAll_self (d : List String) (fs : Fs) :
    FsEntry.mk d true ∈ mkdirAll d fs := by
  unfold mkdirAll
  split
  · assumption
  · exact List.mem_cons_self _ _

theorem mem_mkdirAll_of_mem {x : FsEntry} (d : List String) {fs : Fs} (h : x ∈ fs) :
    x ∈ mkdirAll d fs := by
  unfold mkdirAll
  split
  · exact h
  · exact List.mem_cons_of_mem _ h

theorem not_mem_removeAll {x : FsEntry} {d : List String} (fs : Fs)
    (hu : underDir d x.path = true) : x ∉ removeAll d fs := by
  intro hx
  have := List.of_mem_filter hx
  simp [hu] at this

theorem mem_removeAll_not_under {x : FsEntry} {d : List String} {fs : Fs}
    (hx : x ∈ removeAll d fs) : underDir d x.path = false := by
  have := List.of_mem_filter hx
  simpa using this

/-- C5 (amended): per-tenant storage construction wipes any pre-existing WAL
directory and recreates the directory structure (including the `wal`
subdirectory) before opening the WAL; provided the `os.RemoveAll` wipe
succeeds — its failure is only logged and construction continues — no
leftover file survives under the tenant's WAL directory once construction
succeeds; and a clean `Close` stops the override watcher, collects the
errors from closing the WAL and the remote-forward path, and deletes the
tenant's WAL directory. -/
theorem C5_storage_lifecycle (cfg : StorageConfig) (o : TenantOverrides) (tenant : String)
    (fs : Fs) (env : StorageNewEnv) (s : StorageImpl) (fs₂ : Fs)
    (hrm : env.removeFails = false)
    (hnew : storageNew cfg o tenant fs env = (.ok s, fs₂)) :
    storageLifecycleSpec cfg tenant fs s fs₂ := by
  have hmk : env.mkdirFails = false := by
    cases h : env.mkdirFails
    · rfl
    · rw [storageNew] at hnew
      simp [h] at hnew
  have happ : env.applyConfigFails = false := by
    cases h : env.applyConfigFails
    · rfl
    · rw [storageNew] at hnew
      simp [hmk, h] at hnew
  have hwal : env.walOpenFails = false := by
    cases h : env.walOpenFails
    · rfl
    · rw [storageNew] at hnew
      simp [hmk, happ, h] at hnew
  rw [storageNew] at hnew
  simp only [hrm, hmk, happ, hwal, Bool.false_eq_true, if_false, Prod.mk.injEq,
    Except.ok.injEq] at hnew
  obtain ⟨hs, hfs⟩ := hnew
  subst hfs
  refine ⟨?_, ?_, ?_, ?_, ?_, ?_⟩
  · intro e he hu hd hmem
    rcases mem_mkdirAll hmem with h | hmem1
    · subst h
      simp at hd
    rcases mem_mkdirAll hmem1 with h | hmem2
    · subst h
      simp at hd
    exact not_mem_removeAll fs hu hmem2
  · exact mem_mkdirAll_of_mem _ (mem_mkdirAll_self _ _)
  · exact mem_mkdirAll_self _ _
  · rw [← hs]
  · rw [← hs]
  · intro fs' cenv
    refine ⟨rfl, ?_, ?_, ?_⟩
    · intro msg hmsg
      simp only [storageClose, multiErr, hmsg, List.filterMap]
      refine ⟨_, rfl, List.mem_cons_self _ _⟩
    · intro msg hmsg
      cases hw : cenv.walCloseErr <;>
        · simp only [storageClose, multiErr, hmsg, hw, List.filterMap]
          exact ⟨_, rfl, by simp⟩
    · intro hrm e hmem
      simp only [storageClose, hrm, if_pos] at hmem
      exact mem_removeAll_not_under hmem

/-- Counterexample to C5 as stated: when the startup `os.RemoveAll` fails —
which the source only logs as a warning before continuing (instance.go) —
construction still completes successfully while a leftover (non-directory)
file is still present under the tenant's WAL directory. -/
theorem C5_storage_lifecycle_counterexample :
    storageNew sampleStorageCfg sampleOverrides "t1" sampleLeftoverFs
        sampleStorageEnvRemoveFail =
      (.ok sampleStorage, sampleLeftoverFs) ∧
    FsEntry.mk ["data", "t1", "wal", "segment-0001"] false ∈ sampleLeftoverFs ∧
    underDir (sampleStorageCfg.path ++ ["t1"]) ["data", "t1", "wal", "segment-0001"] = true :=
  ⟨by rfl, by decide, by decide⟩

/-- Witness for the amended C5: with the wipe succeeding, construction for
tenant `t1` over a filesystem holding crash leftovers (a stale segment file)
removes them, and the subsequent close removes the directory. -/
theorem C5_storage_lifecycle_witness :
    sampleStorageEnvOk.removeFails = false ∧
    storageNew sampleStorageCfg sampleOverrides "t1" sampleLeftoverFs sampleStorageEnvOk =
      (.ok sampleStorage,
       [{ path := ["data", "t1", "wal"], isDir := true },
        { path := ["data", "t1"], isDir := true },
        { path := ["data", "t2", "keep"], isDir := false }]) ∧
    storageLifecycleSpec sampleStorageCfg "t1" sampleLeftoverFs sampleStorage
      [{ path := ["data", "t1", "wal"], isDir := true },
       { path := ["data", "t1"], isDir := true },
       { path := ["data", "t2", "keep"], isDir := false }] :=
  ⟨rfl, by rfl,
   C5_storage_lifecycle sampleStorageCfg sampleOverrides "t1" sampleLeftoverFs
     sampleStorageEnvOk sampleStorage
     [{ path := ["data", "t1", "wal"], isDir := true },
      { path := ["data", "t1"], isDir := true },
      { path := ["data", "t2", "keep"], isDir := false }] (by rfl) (by rfl)⟩

/-- C6: the override watcher polls on a fixed 30-second interval and reapplies
the remote-forward configuration exactly when the polled header set or
native-histogram mode differs from the values of the last applied
configuration attempt (the cache); a failed reapplication leaves the
previously working configuration active, increments the per-tenant failure
counter and never terminates the watcher, which continues polling. -/
theorem C6_watchOverrides (s : StorageImpl) (p : WatcherPoll) (ps : List WatcherPoll) :
    watchOverridesSpec s p ps := by
  by_cases hh : headersEqual s.currentHeaders p.headers = true <;>
    by_cases hb : s.sendNativeHistograms = p.sendNativeHistograms <;>
      refine ⟨rfl, ?_, ?_, ?_, ?_⟩ <;>
        cases hf : p.applyFails <;>
          simp_all [watchOverridesStep, watchOverridesRun, bne_iff_ne]

/-- Witness for C6: a poll with changed headers and an injected
`ApplyConfig` failure. -/
theorem C6_watchOverrides_witness :
    watchOverridesSpec sampleStorage samplePollChanged [samplePollSame] :=
  C6_watchOverrides sampleStorage samplePollChanged [samplePollSame]

/-- C10: the watcher overwrites its cached header set and histogram mode with
the polled values before attempting the reapplication, regardless of the
attempt's outcome; hence after a failed reapplication a subsequent poll with
the same values detects no change and does not retry — a retry happens only
when the overrides change again. -/
theorem C10_watcher_cache_before_apply (s : StorageImpl) (p p' : WatcherPoll)
    (hchanged : ¬(headersEqual s.currentHeaders p.headers = true ∧
      s.sendNativeHistograms = p.sendNativeHistograms))
    (hfail : p.applyFails = true)
    (hrefl : headersEqual p.headers p.headers = true) :
    watcherNoRetrySpec s p p' := by
  have hcond : (!(headersEqual s.currentHeaders p.headers) ||
      (s.sendNativeHistograms != p.sendNativeHistograms)) = true := by
    by_cases hh : headersEqual s.currentHeaders p.headers = true <;>
      by_cases hb : s.sendNativeHistograms = p.sendNativeHistograms <;>
        simp_all [bne_iff_ne]
  have hstep : (watchOverridesStep s p).1 =
      { s with currentHeaders := p.headers,
               sendNativeHistograms := p.sendNativeHistograms,
               updateFailedCount := s.updateFailedCount + 1 } := by
    simp [watchOverridesStep, hcond, hfail]
  refine ⟨?_, ?_, ?_, ?_⟩
  · rw [hstep]
  · rw [hstep]
  · intro hph hpn
    rw [hstep]
    simp [watchOverridesStep, hph, hpn, hrefl]
  · intro hch
    rw [hstep]
    cases hpf : p'.applyFails <;>
      by_cases hh : headersEqual p.headers p'.headers = true <;>
        by_cases hb : p.sendNativeHistograms = p'.sendNativeHistograms <;>
          simp_all [watchOverridesStep, bne_iff_ne]

/-- Witness for C10: a failed reapplication for changed headers, followed by a
poll observing the same values. -/
theorem C10_watcher_cache_before_apply_witness :
    ¬(headersEqual sampleStorage.currentHeaders samplePollChanged.headers = true ∧
      sampleStorage.sendNativeHistograms = samplePollChanged.sendNativeHistograms) ∧
    samplePollChanged.applyFails = true ∧
    headersEqual samplePollChanged.headers samplePollChanged.headers = true ∧
    watcherNoRetrySpec sampleStorage samplePollChanged samplePollSame :=
  ⟨by decide, by decide, by decide,
   C10_watcher_cache_before_apply sampleStorage samplePollChanged samplePollSame
     (by decide) (by decide) (by decide)⟩

end TempoGen
